import Mathlib

/-!
Shallow embedding of the core of the Smart_Contract-Checker repository:
the `ContractImmunityLayer` Solidity contract (interception, threat
classification, freeze/resolution engine) and the companion
`AIAnalysisOracle` contract.

Modelling conventions:
* Addresses, `bytes32` identifiers, wei amounts, block numbers and
  timestamps are `Nat`.
* `bytes` values are `List Nat` (one entry per byte).
* Each external contract function is a Lean function from a pre-state and
  a call environment to `Except GErr (post-state, emitted events, return
  data)`.  An `Except.error` result models a Solidity revert: the EVM
  rolls back every storage write and discards every event of the
  transaction, so an error carries no state and the caller keeps the
  pre-state.  This transaction-level rollback is part of the source
  language semantics and is essential to several claims.
* `keccak256(abi.encodePacked(...))` is modelled by a deterministic,
  computable content hash (`computeThreatId` / `computeSimId`); the
  concrete hash values are irrelevant to every property proved here.
* The source declares `_detectStateManipulation` and
  `_detectHighFrequencyCalls` as `view` although they increment the
  per-caller counters; the statements are embedded as written, with the
  counter mutation threaded through the classification.
* Cross-contract reentrancy is out of scope: the outcome of the low-level
  call to the protected target is supplied by the environment
  (`targetCallResult` / `overrideCallResult`) and does not touch the
  immunity layer state, matching the `nonReentrant` guard on
  `protectedCall`.
-/

/-- Threat severity levels, `ThreatLevel` enum of the source (ordinal order
NONE < LOW < MEDIUM < HIGH < CRITICAL). -/
inductive ThreatLevel where
  | NONE
  | LOW
  | MEDIUM
  | HIGH
  | CRITICAL
deriving DecidableEq, Repr

/-- Ordinal of a threat level, used for the `>`/`>=` enum comparisons in the
source. -/
def ThreatLevel.toNat : ThreatLevel → Nat
  | .NONE => 0
  | .LOW => 1
  | .MEDIUM => 2
  | .HIGH => 3
  | .CRITICAL => 4

/-- `VulnerabilityType` enum of the source. -/
inductive VulnerabilityType where
  | REENTRANCY
  | FLASH_LOAN
  | STATE_MANIPULATION
  | UNEXPECTED_ETH_FLOW
  | UNSAFE_CALL
  | ACCESS_CONTROL
  | INTEGER_OVERFLOW
  | LOGIC_ERROR
  | UNKNOWN
deriving DecidableEq, Repr

/-- `ContractProfile` struct of the source. -/
structure ContractProfile where
  contractAddress : Nat
  isProtected : Bool
  protectionLevel : Nat
  lastAuditTimestamp : Nat
deriving DecidableEq, Repr

/-- The zero value a Solidity mapping returns for an absent key. -/
def ContractProfile.zero : ContractProfile :=
  { contractAddress := 0, isProtected := false, protectionLevel := 0, lastAuditTimestamp := 0 }

/-- `ThreatDetection` struct of the source. -/
structure ThreatDetection where
  suspiciousCaller : Nat
  targetContract : Nat
  originalCalldata : List Nat
  timestamp : Nat
  level : ThreatLevel
  vulnType : VulnerabilityType
  reason : String
  blockNumber : Nat
  isMitigated : Bool
  mitigationResult : List Nat
  freezeUntilBlock : Nat
deriving DecidableEq, Repr

/-- The zero value a Solidity mapping returns for an absent key (note the
zero enum values: level NONE, vulnType REENTRANCY). -/
def ThreatDetection.zero : ThreatDetection :=
  { suspiciousCaller := 0, targetContract := 0, originalCalldata := [], timestamp := 0,
    level := .NONE, vulnType := .REENTRANCY, reason := "", blockNumber := 0,
    isMitigated := false, mitigationResult := [], freezeUntilBlock := 0 }

/-- `FrozenTransaction` struct of the source. -/
structure FrozenTransaction where
  threatId : Nat
  initiator : Nat
  frozenAt : Nat
  freezeUntil : Nat
  executed : Bool
  cancelled : Bool
deriving DecidableEq, Repr

/-- The zero value a Solidity mapping returns for an absent key. -/
def FrozenTransaction.zero : FrozenTransaction :=
  { threatId := 0, initiator := 0, frozenAt := 0, freezeUntil := 0,
    executed := false, cancelled := false }

/-- `AISimulationResult` struct of the source. -/
structure AISimulationResult where
  isDangerous : Bool
  estimatedLoss : Nat
  affectedAddresses : List Nat
  rootCause : String
  suggestedMitigation : String
  simulationId : Nat
deriving DecidableEq, Repr

/-- The zero value a Solidity mapping returns for an absent key. -/
def AISimulationResult.zero : AISimulationResult :=
  { isDangerous := false, estimatedLoss := 0, affectedAddresses := [],
    rootCause := "", suggestedMitigation := "", simulationId := 0 }

/-- The full storage of `ContractImmunityLayer` (mappings are total functions
with the Solidity zero-struct default; `owner` comes from OpenZeppelin
`Ownable`). -/
structure ILState where
  protectedContracts : Nat → ContractProfile
  threatDetections : Nat → ThreatDetection
  frozenTransactions : Nat → FrozenTransaction
  suspiciousAddressCount : Nat → Nat
  lastInteractionBlock : Nat → Nat
  simulationResults : Nat → AISimulationResult
  totalThreatsDetected : Nat
  totalThreatsMitigated : Nat
  totalLossPrevented : Nat
  freezeDuration : Nat
  minBalanceThreshold : Nat
  maxCallDepth : Nat
  suspiciousCallThreshold : Nat
  gasPriceThreshold : Nat
  aiOracle : Nat
  emergencyStop : Bool
  owner : Nat

/-- Pointwise mapping update (`m[k] = v` on a Solidity mapping). -/
def upd {α : Type} (m : Nat → α) (k : Nat) (v : α) : Nat → α :=
  fun x => if x = k then v else m x

/-- Ambient EVM data for one transaction: message sender, attached value,
environment signals read by the detector, and the outcomes the environment
gives to the two low-level external calls the contract can make. -/
structure CallEnv where
  sender : Nat
  value : Nat
  callerCodeLen : Nat
  callerBalance : Nat
  txOrigin : Nat
  txGasprice : Nat
  gasLeft : Nat
  blockNumber : Nat
  blockTimestamp : Nat
  targetCallResult : Bool × List Nat
  overrideCallResult : Bool × List Nat

/-- One wei-denominated ether unit (`1 ether`). -/
def etherUnit : Nat := 1000000000000000000

/-- One gwei in wei (`1 gwei`). -/
def gweiUnit : Nat := 1000000000

/-- Events of `ContractImmunityLayer`. -/
inductive Event where
  | ThreatDetected (threatId target caller : Nat) (level : ThreatLevel)
      (vulnType : VulnerabilityType) (reason : String)
  | TransactionFrozen (threatId target caller freezeUntilBlock : Nat) (level : ThreatLevel)
  | MitigationExecuted (threatId target : Nat) (success : Bool) (action : String)
      (result : List Nat)
  | ContractProtected (contractAddress owner protectionLevel timestamp : Nat)
  | ContractUnprotected (contractAddress owner timestamp : Nat)
  | EmergencyStopActivated (activatedBy timestamp : Nat) (reason : String)
  | EmergencyStopDeactivated (deactivatedBy timestamp : Nat)
  | AISimulationRequested (threatId simulationId target : Nat)
deriving DecidableEq, Repr

/-- Revert outcomes of `ContractImmunityLayer` transactions, one constructor
per distinct revert site of the source.  `panicSliceOutOfBounds` is the EVM
abort raised by an out-of-range calldata slice (`_data[:4]` on a payload
shorter than 4 bytes); it is none of the require/revert messages of the
contract. -/
inductive GErr where
  | emergencyStopActive
  | targetNotProtected
  | frozenForReview (threatId : Nat)
  | executionFailed
  | onlyOwner
  | onlyAIOracle
  | noThreatFound
  | transactionNotFrozen
  | alreadyProcessed
  | freezePeriodExpired
  | simulationRequested
  | invalidAction
  | invalidContractAddress
  | invalidProtectionLevel
  | contractNotProtected
  | invalidOracle
  | invalidDuration
  | invalidCallDepth
  | invalidThreshold
  | panicSliceOutOfBounds
  | directCallsNotAllowed
deriving DecidableEq, Repr

/-- First four bytes of a payload read as a big-endian `bytes4` selector.
Only meaningful when the payload has at least 4 bytes; every use is guarded
by the same length checks as the source. -/
def sel4 (data : List Nat) : Nat :=
  (((data.getD 0 0) * 256 + data.getD 1 0) * 256 + data.getD 2 0) * 256 + data.getD 3 0

/-- The sensitive value-moving selector set of `_detectReentrancyPattern`. -/
def vulnerableSigs : List Nat :=
  [0xa9059cbb, 0x095ea7b3, 0x23b872dd, 0x40c10f19, 0x9dc29fac,
   0x42966c68, 0x79cc6790, 0x40e58ee5, 0x2e1a7d4d, 0x3ccfd60b]

/-- The administrative selector set of `_detectAccessControlViolation`. -/
def adminSigs : List Nat :=
  [0xf2fde38b, 0x8da5cb5b, 0xa6f9dae1, 0x3cebb823,
   0x704b6c02, 0x40c10f19, 0x42966c68, 0x9dc29fac]

/-- The upgrade/admin selector set of `_detectUnsafeCall`. -/
def unsafeSigs : List Nat :=
  [0x5c60da1b, 0x3659cfe6, 0x4f1ef286, 0x8f283970, 0xf851a440]

/-- `_detectReentrancyPattern`: the caller has contract code and the payload
selector is in the sensitive set.  The source guards the slice with
`_data.length >= 4`, so this heuristic cannot abort. -/
def detectReentrancyPattern (data : List Nat) (callerCodeLen : Nat) : Bool :=
  if callerCodeLen = 0 then false
  else if 4 ≤ data.length then vulnerableSigs.contains (sel4 data)
  else false

/-- `_detectFlashLoanPattern`. -/
def detectFlashLoanPattern (st : ILState) (env : CallEnv) : Bool :=
  if 0 < env.callerCodeLen ∧ env.callerBalance < st.minBalanceThreshold ∧
      env.txOrigin ≠ env.sender then true
  else if 10 * etherUnit < env.value ∧ env.gasLeft < 100000 then true
  else false

/-- `_detectStateManipulation`: increments the per-caller counter when the
caller already interacted in the current block (the side effect noted in the
spec), otherwise resets the counter for the new block. -/
def detectStateManipulation (st : ILState) (caller blockNumber : Nat) : Bool × ILState :=
  if st.lastInteractionBlock caller = blockNumber then
    let c := st.suspiciousAddressCount caller + 1
    (st.suspiciousCallThreshold ≤ c,
      { st with suspiciousAddressCount := upd st.suspiciousAddressCount caller c })
  else
    (false,
      { st with lastInteractionBlock := upd st.lastInteractionBlock caller blockNumber,
                suspiciousAddressCount := upd st.suspiciousAddressCount caller 1 })

/-- `_detectUnexpectedETHFlow`: on a non-zero value with a non-empty payload
the source slices `_data[:4]` without a length guard; a payload of 1..3
bytes makes the slice abort the transaction. -/
def detectUnexpectedETHFlow (data : List Nat) (value : Nat) : Except GErr Bool :=
  if 0 < value ∧ 0 < data.length then
    if data.length < 4 then .error .panicSliceOutOfBounds
    else .ok (sel4 data ≠ 0)
  else .ok false

/-- `_detectUnsafeCall`. -/
def detectUnsafeCall (data : List Nat) : Bool :=
  if 4 ≤ data.length then unsafeSigs.contains (sel4 data) else false

/-- `_detectAccessControlViolation`. -/
def detectAccessControlViolation (data : List Nat) : Bool :=
  if 4 ≤ data.length then adminSigs.contains (sel4 data) else false

/-- `_detectHighFrequencyCalls`: increments the same per-caller counter again
when the caller already interacted in the current block. -/
def detectHighFrequencyCalls (st : ILState) (caller blockNumber : Nat) : Bool × ILState :=
  if st.lastInteractionBlock caller = blockNumber then
    let c := st.suspiciousAddressCount caller + 1
    (3 < c, { st with suspiciousAddressCount := upd st.suspiciousAddressCount caller c })
  else (false, st)

/-- The `ThreatDetection` record `_detectThreats` builds for a given
classification outcome. -/
def mkThreat (env : CallEnv) (target : Nat) (data : List Nat)
    (level : ThreatLevel) (vulnType : VulnerabilityType) (reason : String) :
    ThreatDetection :=
  { suspiciousCaller := env.sender, targetContract := target, originalCalldata := data,
    timestamp := env.blockTimestamp, level := level, vulnType := vulnType,
    reason := reason, blockNumber := env.blockNumber, isMitigated := false,
    mitigationResult := [], freezeUntilBlock := 0 }

/-- `_detectThreats`: the fixed-priority heuristic chain, returning the first
match.  The counter side effects of heuristics 3 and 7 are threaded through
the returned state; an out-of-range calldata slice in heuristic 4 aborts the
whole classification. -/
def detectThreats (st : ILState) (env : CallEnv) (target : Nat) (data : List Nat) :
    Except GErr (ThreatDetection × ILState) :=
  if detectReentrancyPattern data env.callerCodeLen then
    .ok (mkThreat env target data .HIGH .REENTRANCY
      "Possible reentrancy attack pattern detected", st)
  else if detectFlashLoanPattern st env then
    .ok (mkThreat env target data .HIGH .FLASH_LOAN
      "Flash loan manipulation pattern detected", st)
  else
    match detectStateManipulation st env.sender env.blockNumber with
    | (true, st1) =>
      .ok (mkThreat env target data .MEDIUM .STATE_MANIPULATION
        "Suspicious state manipulation pattern", st1)
    | (false, st1) =>
      match detectUnexpectedETHFlow data env.value with
      | .error e => .error e
      | .ok true =>
        .ok (mkThreat env target data .MEDIUM .UNEXPECTED_ETH_FLOW
          "Unexpected ETH transfer pattern", st1)
      | .ok false =>
        if detectUnsafeCall data then
          .ok (mkThreat env target data .LOW .UNSAFE_CALL
            "Unsafe external call detected", st1)
        else if detectAccessControlViolation data then
          .ok (mkThreat env target data .HIGH .ACCESS_CONTROL
            "Possible access control violation", st1)
        else
          match detectHighFrequencyCalls st1 env.sender env.blockNumber with
          | (true, st2) =>
            .ok (mkThreat env target data .LOW .UNKNOWN
              "High frequency calls from same address", st2)
          | (false, st2) =>
            if st.gasPriceThreshold < env.txGasprice then
              .ok (mkThreat env target data .LOW .UNKNOWN
                "Unusually high gas price", st2)
            else
              .ok (mkThreat env target data .NONE .UNKNOWN "", st2)

/-- A deterministic content hash standing in for
`keccak256(abi.encodePacked(...))` (injectivity is never used). -/
def hashCombine (a b : Nat) : Nat := a * 1000003 + b + 7

/-- Content hash of a byte string. -/
def hashBytes (l : List Nat) : Nat := l.foldl hashCombine 5381

/-- The threat identifier of `protectedCall`:
`keccak256(abi.encodePacked(target, sender, data, value, block.number, block.timestamp))`. -/
def computeThreatId (target sender : Nat) (data : List Nat)
    (value blockNumber blockTimestamp : Nat) : Nat :=
  hashCombine (hashCombine (hashCombine (hashCombine (hashCombine
    (hashBytes data) target) sender) value) blockNumber) blockTimestamp

/-- The simulation identifier of `_requestAISimulation` /
`receiveAISimulationResult`. -/
def computeSimId (threatId blockTimestamp sender : Nat) : Nat :=
  hashCombine (hashCombine threatId blockTimestamp) sender

/-- `abi.encode` of a string, modelled as its UTF-8 bytes. -/
def abiEncodeString (s : String) : List Nat :=
  s.toUTF8.toList.map (fun b => b.toNat)

/-- `_executeWithEnhancedMonitoring`: forwards the call to the target (its
outcome supplied by the environment).  On target failure the source runs
`require(success, "Execution failed")`, replacing the target revert data
with the fixed `Execution failed` message; on success a prior sub-HIGH
threat record is marked mitigated with the call result. -/
def executeWithEnhancedMonitoring (st : ILState) (env : CallEnv) (threatId : Nat) :
    Except GErr (ILState × List Event × List Nat) :=
  match env.targetCallResult with
  | (false, _) => .error .executionFailed
  | (true, result) =>
    if (st.threatDetections threatId).level ≠ .NONE then
      let t := st.threatDetections threatId
      let t2 := { t with isMitigated := true, mitigationResult := result }
      .ok ({ st with threatDetections := upd st.threatDetections threatId t2 },
           [], result)
    else
      .ok (st, [], result)

/-- `protectedCall`: the gateway entry point.  A HIGH or CRITICAAL
classification writes the threat record, the frozen transaction and the
detection/freeze events and then reverts with the `Transaction frozen for
security review` message; since a Solidity revert rolls back the whole
transaction, the error result carries none of those writes or events. -/
def protectedCall (st : ILState) (env : CallEnv) (target : Nat) (data : List Nat) :
    Except GErr (ILState × List Event × List Nat) :=
  if st.emergencyStop then .error .emergencyStopActive
  else if (st.protectedContracts target).isProtected = false then .error .targetNotProtected
  else
    match detectThreats st env target data with
    | .error e => .error e
    | .ok (threat, st1) =>
      let threatId := computeThreatId target env.sender data env.value
        env.blockNumber env.blockTimestamp
      if 0 < threat.level.toNat then
        let st2 := { st1 with
          threatDetections := upd st1.threatDetections threatId threat,
          totalThreatsDetected := st1.totalThreatsDetected + 1 }
        if 3 ≤ threat.level.toNat then
          .error (.frozenForReview threatId)
        else
          match executeWithEnhancedMonitoring st2 env threatId with
          | .error e => .error e
          | .ok (st3, evs, result) =>
            .ok (st3,
              Event.ThreatDetected threatId target env.sender threat.level
                threat.vulnType threat.reason :: evs,
              result)
      else
        executeWithEnhancedMonitoring st1 env threatId

/-- `addContractProtection` (owner only). -/
def addContractProtection (st : ILState) (env : CallEnv) (c protectionLevel : Nat) :
    Except GErr (ILState × List Event) :=
  if env.sender = st.owner then
    if c = 0 then .error .invalidContractAddress
    else if 1 ≤ protectionLevel ∧ protectionLevel ≤ 5 then
      let p : ContractProfile :=
        { contractAddress := c, isProtected := true,
          protectionLevel := protectionLevel,
          lastAuditTimestamp := env.blockTimestamp }
      .ok ({ st with protectedContracts := upd st.protectedContracts c p },
           [.ContractProtected c env.sender protectionLevel env.blockTimestamp])
    else .error .invalidProtectionLevel
  else .error .onlyOwner

/-- `removeContractProtection` (owner only). -/
def removeContractProtection (st : ILState) (env : CallEnv) (c : Nat) :
    Except GErr (ILState × List Event) :=
  if env.sender = st.owner then
    if (st.protectedContracts c).isProtected then
      let p := { st.protectedContracts c with isProtected := false }
      .ok ({ st with protectedContracts := upd st.protectedContracts c p },
           [.ContractUnprotected c env.sender env.blockTimestamp])
    else .error .contractNotProtected
  else .error .onlyOwner

/-- `executeOwnerOverride` (owner only): resolves a frozen transaction with
action `execute`, `revert` or `simulate`, after the NotFrozen /
AlreadyResolved / FreezeExpired checks in source order.  A failed `execute`
sub-call falls through without reverting and without writing anything. -/
def executeOwnerOverride (st : ILState) (env : CallEnv) (threatId : Nat)
    (action : String) : Except GErr (ILState × List Event) :=
  if env.sender = st.owner then
    if (st.threatDetections threatId).level = .NONE then .error .noThreatFound
    else if (st.frozenTransactions threatId).frozenAt = 0 then .error .transactionNotFrozen
    else
      let threat := st.threatDetections threatId
      let ftx := st.frozenTransactions threatId
      if ftx.executed ∨ ftx.cancelled then .error .alreadyProcessed
      else if ftx.freezeUntil < env.blockNumber then .error .freezePeriodExpired
      else if action = "execute" then
        match env.overrideCallResult with
        | (true, result) =>
          let threat2 := { threat with isMitigated := true, mitigationResult := result }
          let ftx2 := { ftx with executed := true }
          .ok ({ st with
                 threatDetections := upd st.threatDetections threatId threat2,
                 frozenTransactions := upd st.frozenTransactions threatId ftx2,
                 totalThreatsMitigated := st.totalThreatsMitigated + 1 },
               [.MitigationExecuted threatId threat.targetContract true
                  "Executed with owner override" result])
        | (false, _) => .ok (st, [])
      else if action = "revert" then
        let mr := abiEncodeString "Transaction reverted by owner"
        let threat2 := { threat with isMitigated := true, mitigationResult := mr }
        let ftx2 := { ftx with cancelled := true }
        .ok ({ st with
               threatDetections := upd st.threatDetections threatId threat2,
               frozenTransactions := upd st.frozenTransactions threatId ftx2,
               totalThreatsMitigated := st.totalThreatsMitigated + 1 },
             [.MitigationExecuted threatId threat.targetContract true
                "Reverted by owner" (abiEncodeString "Reverted")])
      else if action = "simulate" then .error .simulationRequested
      else .error .invalidAction
  else .error .onlyOwner

/-- `activateEmergencyStop` (owner only). -/
def activateEmergencyStop (st : ILState) (env : CallEnv) (reason : String) :
    Except GErr (ILState × List Event) :=
  if env.sender = st.owner then
    .ok ({ st with emergencyStop := true },
         [.EmergencyStopActivated env.sender env.blockTimestamp reason])
  else .error .onlyOwner

/-- `deactivateEmergencyStop` (owner only). -/
def deactivateEmergencyStop (st : ILState) (env : CallEnv) :
    Except GErr (ILState × List Event) :=
  if env.sender = st.owner then
    .ok ({ st with emergencyStop := false },
         [.EmergencyStopDeactivated env.sender env.blockTimestamp])
  else .error .onlyOwner

/-- `setAIOracle` (owner only). -/
def setAIOracle (st : ILState) (env : CallEnv) (a : Nat) :
    Except GErr (ILState × List Event) :=
  if env.sender = st.owner then
    if a = 0 then .error .invalidOracle else .ok ({ st with aiOracle := a }, [])
  else .error .onlyOwner

/-- `setFreezeDuration` (owner only). -/
def setFreezeDuration (st : ILState) (env : CallEnv) (d : Nat) :
    Except GErr (ILState × List Event) :=
  if env.sender = st.owner then
    if 0 < d ∧ d ≤ 1000 then .ok ({ st with freezeDuration := d }, [])
    else .error .invalidDuration
  else .error .onlyOwner

/-- `setMinBalanceThreshold` (owner only; the source has no range check). -/
def setMinBalanceThreshold (st : ILState) (env : CallEnv) (t : Nat) :
    Except GErr (ILState × List Event) :=
  if env.sender = st.owner then .ok ({ st with minBalanceThreshold := t }, [])
  else .error .onlyOwner

/-- `setMaxCallDepth` (owner only). -/
def setMaxCallDepth (st : ILState) (env : CallEnv) (d : Nat) :
    Except GErr (ILState × List Event) :=
  if env.sender = st.owner then
    if 0 < d ∧ d ≤ 10 then .ok ({ st with maxCallDepth := d }, [])
    else .error .invalidCallDepth
  else .error .onlyOwner

/-- `setSuspiciousCallThreshold` (owner only). -/
def setSuspiciousCallThreshold (st : ILState) (env : CallEnv) (t : Nat) :
    Except GErr (ILState × List Event) :=
  if env.sender = st.owner then
    if 0 < t then .ok ({ st with suspiciousCallThreshold := t }, [])
    else .error .invalidThreshold
  else .error .onlyOwner

/-- `setGasPriceThreshold` (owner only). -/
def setGasPriceThreshold (st : ILState) (env : CallEnv) (t : Nat) :
    Except GErr (ILState × List Event) :=
  if env.sender = st.owner then
    if 0 < t then .ok ({ st with gasPriceThreshold := t }, [])
    else .error .invalidThreshold
  else .error .onlyOwner

/-- `receiveAISimulationResult` (AI-oracle only): stores the simulation
result, appends the root cause to the threat reason, and auto-mitigates a
CRITICAL threat when the oracle marks it dangerous
(`_executeAutoMitigation`). -/
def receiveAISimulationResult (st : ILState) (env : CallEnv) (threatId : Nat)
    (isDangerous : Bool) (estimatedLoss : Nat) (rootCause suggestedMitigation : String) :
    Except GErr (ILState × List Event) :=
  if env.sender = st.aiOracle then
    if (st.threatDetections threatId).level = .NONE then .error .noThreatFound
    else
      let simulationId := computeSimId threatId env.blockTimestamp env.sender
      let threat0 := st.threatDetections threatId
      let threat1 := { threat0 with
        reason := threat0.reason ++ " | AI Analysis: " ++ rootCause }
      let simRes : AISimulationResult :=
        { isDangerous := isDangerous, estimatedLoss := estimatedLoss,
          affectedAddresses := [], rootCause := rootCause,
          suggestedMitigation := suggestedMitigation, simulationId := simulationId }
      let st1 := { st with
        simulationResults := upd st.simulationResults simulationId simRes,
        threatDetections := upd st.threatDetections threatId threat1 }
      if isDangerous ∧ threat1.level = .CRITICAL then
        if suggestedMitigation = "revert" then
          let mr := abiEncodeString "Auto-reverted by AI analysis"
          let threat2 := { threat1 with isMitigated := true, mitigationResult := mr }
          .ok ({ st1 with
                 threatDetections := upd st1.threatDetections threatId threat2,
                 totalThreatsMitigated := st1.totalThreatsMitigated + 1 },
               [.MitigationExecuted threatId threat1.targetContract true
                  "Auto-reverted by AI" (abiEncodeString "Reverted")])
        else .ok (st1, [])
      else .ok (st1, [])
  else .error .onlyAIOracle

/-- One message of the external, state-mutating interface of
`ContractImmunityLayer` (`directCall` models the `receive`/`fallback`
functions: plain value transfers are accepted, any other direct call
reverts). -/
inductive ILMsg where
  | protectedCall (target : Nat) (data : List Nat)
  | addContractProtection (c protectionLevel : Nat)
  | removeContractProtection (c : Nat)
  | executeOwnerOverride (threatId : Nat) (action : String)
  | activateEmergencyStop (reason : String)
  | deactivateEmergencyStop
  | setAIOracle (a : Nat)
  | setFreezeDuration (d : Nat)
  | setMinBalanceThreshold (t : Nat)
  | setMaxCallDepth (d : Nat)
  | setSuspiciousCallThreshold (t : Nat)
  | setGasPriceThreshold (t : Nat)
  | receiveAISimulationResult (threatId : Nat) (isDangerous : Bool)
      (estimatedLoss : Nat) (rootCause suggestedMitigation : String)
  | directCall (data : List Nat)

/-- Transaction-level dispatch over the whole external interface of
`ContractImmunityLayer`: one message in, either a post-state with its events
and return data, or a revert that leaves the pre-state in force. -/
def step (st : ILState) (env : CallEnv) (m : ILMsg) :
    Except GErr (ILState × List Event × List Nat) :=
  match m with
  | .protectedCall target data => protectedCall st env target data
  | .addContractProtection c l =>
    (addContractProtection st env c l).map (fun r => (r.1, r.2, []))
  | .removeContractProtection c =>
    (removeContractProtection st env c).map (fun r => (r.1, r.2, []))
  | .executeOwnerOverride tid action =>
    (executeOwnerOverride st env tid action).map (fun r => (r.1, r.2, []))
  | .activateEmergencyStop reason =>
    (activateEmergencyStop st env reason).map (fun r => (r.1, r.2, []))
  | .deactivateEmergencyStop =>
    (deactivateEmergencyStop st env).map (fun r => (r.1, r.2, []))
  | .setAIOracle a => (setAIOracle st env a).map (fun r => (r.1, r.2, []))
  | .setFreezeDuration d => (setFreezeDuration st env d).map (fun r => (r.1, r.2, []))
  | .setMinBalanceThreshold t =>
    (setMinBalanceThreshold st env t).map (fun r => (r.1, r.2, []))
  | .setMaxCallDepth d => (setMaxCallDepth st env d).map (fun r => (r.1, r.2, []))
  | .setSuspiciousCallThreshold t =>
    (setSuspiciousCallThreshold st env t).map (fun r => (r.1, r.2, []))
  | .setGasPriceThreshold t =>
    (setGasPriceThreshold st env t).map (fun r => (r.1, r.2, []))
  | .receiveAISimulationResult tid d loss rc sm =>
    (receiveAISimulationResult st env tid d loss rc sm).map (fun r => (r.1, r.2, []))
  | .directCall data =>
    if data.isEmpty then .ok (st, [], []) else .error .directCallsNotAllowed

/-- `AnalysisRequest` struct of `AIAnalysisOracle`. -/
structure AnalysisRequest where
  threatId : Nat
  targetContract : Nat
  caller : Nat
  data : List Nat
  timestamp : Nat
  completed : Bool
  aiAnalysis : String
  suggestedAction : String
deriving DecidableEq, Repr

/-- The zero value a Solidity mapping returns for an absent key. -/
def AnalysisRequest.zero : AnalysisRequest :=
  { threatId := 0, targetContract := 0, caller := 0, data := [], timestamp := 0,
    completed := false, aiAnalysis := "", suggestedAction := "" }

/-- Storage of `AIAnalysisOracle`. -/
structure OracleState where
  immunityLayer : Nat
  owner : Nat
  analysisRequests : Nat → AnalysisRequest

/-- Revert outcomes of `AIAnalysisOracle` transactions. -/
inductive OracleErr where
  | onlyImmunityLayer
  | onlyOwner
  | alreadyCompleted
deriving DecidableEq, Repr

/-- Events of `AIAnalysisOracle`. -/
inductive OracleEvent where
  | AnalysisRequested (threatId targetContract caller : Nat)
  | AnalysisCompleted (threatId : Nat) (aiAnalysis suggestedAction : String)
      (isCritical : Bool)
deriving DecidableEq, Repr

/-- `requestAnalysis` (immunity-layer only): unconditionally stores a fresh
request record for the threat id, with `completed := false` and empty
analysis fields, regardless of any record already present. -/
def requestAnalysis (st : OracleState) (sender now : Nat)
    (threatId targetContract caller : Nat) (data : List Nat) :
    Except OracleErr (OracleState × List OracleEvent) :=
  if sender = st.immunityLayer then
    let r : AnalysisRequest :=
      { threatId := threatId, targetContract := targetContract, caller := caller,
        data := data, timestamp := now, completed := false,
        aiAnalysis := "", suggestedAction := "" }
    .ok ({ st with analysisRequests := upd st.analysisRequests threatId r },
         [.AnalysisRequested threatId targetContract caller])
  else .error .onlyImmunityLayer

/-- `submitAnalysis` (oracle-owner only): fails once the request is already
completed, otherwise marks it completed and stores the verdict. -/
def submitAnalysis (st : OracleState) (sender threatId : Nat)
    (analysis suggestedAction : String) (isCritical : Bool) :
    Except OracleErr (OracleState × List OracleEvent) :=
  if sender = st.owner then
    if (st.analysisRequests threatId).completed then .error .alreadyCompleted
    else
      let r := st.analysisRequests threatId
      let r2 := { r with completed := true, aiAnalysis := analysis,
                         suggestedAction := suggestedAction }
      .ok ({ st with analysisRequests := upd st.analysisRequests threatId r2 },
           [.AnalysisCompleted threatId analysis suggestedAction isCritical])
  else .error .onlyOwner

/-- `getAnalysis`: public read of the stored verdict. -/
def getAnalysis (st : OracleState) (threatId : Nat) : String × String × Bool :=
  ((st.analysisRequests threatId).aiAnalysis,
   (st.analysisRequests threatId).suggestedAction,
   (st.analysisRequests threatId).completed)

/-- A deployment-like base state: owner 1, no oracle configured, target 10
protected at level 3, everything else at the constructor defaults of the
source. -/
def st0 : ILState :=
  { protectedContracts := upd (fun _ => ContractProfile.zero) 10
      { contractAddress := 10, isProtected := true, protectionLevel := 3,
        lastAuditTimestamp := 0 },
    threatDetections := fun _ => ThreatDetection.zero,
    frozenTransactions := fun _ => FrozenTransaction.zero,
    suspiciousAddressCount := fun _ => 0,
    lastInteractionBlock := fun _ => 0,
    simulationResults := fun _ => AISimulationResult.zero,
    totalThreatsDetected := 0, totalThreatsMitigated := 0, totalLossPrevented := 0,
    freezeDuration := 30, minBalanceThreshold := etherUnit / 10,
    maxCallDepth := 3, suspiciousCallThreshold := 5,
    gasPriceThreshold := 100 * gweiUnit,
    aiOracle := 0, emergencyStop := false, owner := 1 }

/-- A call environment for a contract caller (address 2) at block 100. -/
def envAttack : CallEnv :=
  { sender := 2, value := 0, callerCodeLen := 120, callerBalance := etherUnit,
    txOrigin := 7, txGasprice := gweiUnit, gasLeft := 1000000,
    blockNumber := 100, blockTimestamp := 1000,
    targetCallResult := (true, []), overrideCallResult := (true, []) }

/-- A call environment for a plain externally-owned caller (address 4). -/
def envPlain : CallEnv :=
  { sender := 4, value := 0, callerCodeLen := 0, callerBalance := etherUnit,
    txOrigin := 4, txGasprice := gweiUnit, gasLeft := 1000000,
    blockNumber := 100, blockTimestamp := 1000,
    targetCallResult := (true, []), overrideCallResult := (true, []) }

/-- The owner (address 1) sending a transaction at block 100. -/
def envOwner : CallEnv :=
  { sender := 1, value := 0, callerCodeLen := 0, callerBalance := etherUnit,
    txOrigin := 1, txGasprice := gweiUnit, gasLeft := 1000000,
    blockNumber := 100, blockTimestamp := 1000,
    targetCallResult := (true, []), overrideCallResult := (true, []) }

/-- `withdraw(uint256 0.1 ether)` calldata: selector `0x2e1a7d4d` (in the
sensitive set) followed by a 32-byte argument. -/
def wdata : List Nat :=
  [0x2e, 0x1a, 0x7d, 0x4d] ++ List.replicate 32 0

/-- A state holding one frozen, unresolved HIGH threat under id 77
(initiator 5, frozen until block 130), as `_freezeTransaction` would have
produced it had the freezing transaction not rolled back. -/
def stFrozen : ILState :=
  { st0 with
    threatDetections := upd st0.threatDetections 77
      { suspiciousCaller := 5, targetContract := 10, originalCalldata := wdata,
        timestamp := 1000, level := .HIGH, vulnType := .REENTRANCY,
        reason := "Possible reentrancy attack pattern detected",
        blockNumber := 100, isMitigated := false, mitigationResult := [],
        freezeUntilBlock := 130 },
    frozenTransactions := upd st0.frozenTransactions 77
      { threatId := 77, initiator := 5, frozenAt := 1000, freezeUntil := 130,
        executed := false, cancelled := false } }

/-- `stFrozen` after the frozen call 77 has been cancelled by an owner
override (`cancelled := true`). -/
def stCancelled : ILState :=
  { stFrozen with
    frozenTransactions := upd stFrozen.frozenTransactions 77
      { threatId := 77, initiator := 5, frozenAt := 1000, freezeUntil := 130,
        executed := false, cancelled := true } }

/-- An oracle state (immunity layer at address 3, owner 1) holding a
completed analysis for threat id 5. -/
def stOracleDone : OracleState :=
  { immunityLayer := 3, owner := 1,
    analysisRequests := upd (fun _ => AnalysisRequest.zero) 5
      { threatId := 5, targetContract := 10, caller := 2, data := wdata,
        timestamp := 900, completed := true, aiAnalysis := "verdict",
        suggestedAction := "revert" } }

/-- A fresh oracle state (immunity layer at address 3, owner 1). -/
def stOracle0 : OracleState :=
  { immunityLayer := 3, owner := 1, analysisRequests := fun _ => AnalysisRequest.zero }

/-- The owner sending a transaction at a chosen block number. -/
def envOwnerAt (bn : Nat) : CallEnv := { envOwner with blockNumber := bn }

/-- The initiator of the frozen call 77 (address 5, not the owner) sending a
transaction. -/
def envInitiator : CallEnv := { envOwner with sender := 5, txOrigin := 5 }

/-- An externally-owned caller whose forwarded target call fails with revert
data `[b]`. -/
def envTargetFail (b : Nat) : CallEnv := { envPlain with targetCallResult := (false, [b]) }

/-- The owner resolving a frozen call whose re-invoked target call fails. -/
def envOwnerFail : CallEnv := { envOwner with overrideCallResult := (false, [7]) }

/-- An externally-owned caller attaching 5 wei to a call. -/
def envShortPay : CallEnv := { envPlain with value := 5 }

/-- `_detectStateManipulation` touches only the per-caller counters, never the
frozen-transactions ledger. -/
theorem detectStateManipulation_frozen_eq (st st' : ILState) (c bn : Nat) (b : Bool)
    (h : detectStateManipulation st c bn = (b, st')) :
    st'.frozenTransactions = st.frozenTransactions := by
  unfold detectStateManipulation at h
  split at h <;> (cases h; rfl)

/-- `_detectHighFrequencyCalls` touches only the per-caller counters, never
the frozen-transactions ledger. -/
theorem detectHighFrequencyCalls_frozen_eq (st st' : ILState) (c bn : Nat) (b : Bool)
    (h : detectHighFrequencyCalls st c bn = (b, st')) :
    st'.frozenTransactions = st.frozenTransactions := by
  unfold detectHighFrequencyCalls at h
  split at h <;> (cases h; rfl)

/-- Classification never changes the frozen-transactions ledger. -/
theorem detectThreats_frozen_eq (st : ILState) (env : CallEnv) (t : Nat) (d : List Nat)
    (th : ThreatDetection) (st1 : ILState)
    (h : detectThreats st env t d = .ok (th, st1)) :
    st1.frozenTransactions = st.frozenTransactions := by
  unfold detectThreats at h
  split at h
  · cases h; rfl
  · split at h
    · cases h; rfl
    · split at h
      · rename_i st1' heq
        cases h
        exact detectStateManipulation_frozen_eq _ _ _ _ _ heq
      · rename_i st1' heq
        split at h
        · cases h
        · cases h
          exact detectStateManipulation_frozen_eq _ _ _ _ _ heq
        · split at h
          · cases h
            exact detectStateManipulation_frozen_eq _ _ _ _ _ heq
          · split at h
            · cases h
              exact detectStateManipulation_frozen_eq _ _ _ _ _ heq
            · split at h
              · rename_i st2 heq2
                cases h
                exact (detectHighFrequencyCalls_frozen_eq _ _ _ _ _ heq2).trans
                  (detectStateManipulation_frozen_eq _ _ _ _ _ heq)
              · rename_i st2 heq2
                split at h <;>
                  (cases h
                   exact (detectHighFrequencyCalls_frozen_eq _ _ _ _ _ heq2).trans
                     (detectStateManipulation_frozen_eq _ _ _ _ _ heq))

/-- Inversion for `Except.map` landing in `ok`. -/
theorem map_ok_elim {α β γ : Type} (f : Except γ α) (g : α → β) (b : β)
    (h : f.map g = .ok b) : ∃ a, f = .ok a ∧ g a = b := by
  cases f with
  | error e => simp [Except.map] at h
  | ok a =>
    simp [Except.map] at h
    exact ⟨a, rfl, h⟩

/-- Forwarding never changes the frozen-transactions ledger. -/
theorem executeWithEnhancedMonitoring_frozen_eq (st st' : ILState) (env : CallEnv)
    (tid : Nat) (evs : List Event) (r : List Nat)
    (h : executeWithEnhancedMonitoring st env tid = .ok (st', evs, r)) :
    st'.frozenTransactions = st.frozenTransactions := by
  unfold executeWithEnhancedMonitoring at h
  split at h
  · cases h
  · split at h <;> (cases h; rfl)

/-- A successful `protectedCall` transaction never changes the
frozen-transactions ledger: the only freeze write sits on the path that
reverts, and the revert rolls it back. -/
theorem protectedCall_frozen_eq (st st' : ILState) (env : CallEnv) (t : Nat)
    (d : List Nat) (evs : List Event) (r : List Nat)
    (h : protectedCall st env t d = .ok (st', evs, r)) :
    st'.frozenTransactions = st.frozenTransactions := by
  unfold protectedCall at h
  split at h
  · cases h
  · split at h
    · cases h
    · split at h
      · cases h
      · rename_i th st1 heq
        dsimp only at h
        split at h
        · split at h
          · cases h
          · split at h
            · cases h
            · rename_i st3 evs2 r2 heq2
              cases h
              have e1 := executeWithEnhancedMonitoring_frozen_eq _ _ _ _ _ _ heq2
              dsimp only at e1
              exact e1.trans (detectThreats_frozen_eq _ _ _ _ _ _ heq)
        · exact (executeWithEnhancedMonitoring_frozen_eq _ _ _ _ _ _ h).trans
            (detectThreats_frozen_eq _ _ _ _ _ _ heq)

/-- `addContractProtection` never changes the frozen-transactions ledger. -/
theorem addContractProtection_frozen_eq (st st' : ILState) (env : CallEnv)
    (c l : Nat) (evs : List Event)
    (h : addContractProtection st env c l = .ok (st', evs)) :
    st'.frozenTransactions = st.frozenTransactions := by
  unfold addContractProtection at h
  repeat' split at h
  all_goals (cases h <;> rfl)

/-- `removeContractProtection` never changes the frozen-transactions ledger. -/
theorem removeContractProtection_frozen_eq (st st' : ILState) (env : CallEnv)
    (c : Nat) (evs : List Event)
    (h : removeContractProtection st env c = .ok (st', evs)) :
    st'.frozenTransactions = st.frozenTransactions := by
  unfold removeContractProtection at h
  repeat' split at h
  all_goals (cases h <;> rfl)

/-- `activateEmergencyStop` never changes the frozen-transactions ledger. -/
theorem activateEmergencyStop_frozen_eq (st st' : ILState) (env : CallEnv)
    (reason : String) (evs : List Event)
    (h : activateEmergencyStop st env reason = .ok (st', evs)) :
    st'.frozenTransactions = st.frozenTransactions := by
  unfold activateEmergencyStop at h
  repeat' split at h
  all_goals (cases h <;> rfl)

/-- `deactivateEmergencyStop` never changes the frozen-transactions ledger. -/
theorem deactivateEmergencyStop_frozen_eq (st st' : ILState) (env : CallEnv)
    (evs : List Event)
    (h : deactivateEmergencyStop st env = .ok (st', evs)) :
    st'.frozenTransactions = st.frozenTransactions := by
  unfold deactivateEmergencyStop at h
  repeat' split at h
  all_goals (cases h <;> rfl)

/-- `setAIOracle` never changes the frozen-transactions ledger. -/
theorem setAIOracle_frozen_eq (st st' : ILState) (env : CallEnv) (a : Nat)
    (evs : List Event) (h : setAIOracle st env a = .ok (st', evs)) :
    st'.frozenTransactions = st.frozenTransactions := by
  unfold setAIOracle at h
  repeat' split at h
  all_goals (cases h <;> rfl)

/-- `setFreezeDuration` never changes the frozen-transactions ledger. -/
theorem setFreezeDuration_frozen_eq (st st' : ILState) (env : CallEnv) (d : Nat)
    (evs : List Event) (h : setFreezeDuration st env d = .ok (st', evs)) :
    st'.frozenTransactions = st.frozenTransactions := by
  unfold setFreezeDuration at h
  repeat' split at h
  all_goals (cases h <;> rfl)

/-- `setMinBalanceThreshold` never changes the frozen-transactions ledger. -/
theorem setMinBalanceThreshold_frozen_eq (st st' : ILState) (env : CallEnv) (t : Nat)
    (evs : List Event) (h : setMinBalanceThreshold st env t = .ok (st', evs)) :
    st'.frozenTransactions = st.frozenTransactions := by
  unfold setMinBalanceThreshold at h
  repeat' split at h
  all_goals (cases h <;> rfl)

/-- `setMaxCallDepth` never changes the frozen-transactions ledger. -/
theorem setMaxCallDepth_frozen_eq (st st' : ILState) (env : CallEnv) (d : Nat)
    (evs : List Event) (h : setMaxCallDepth st env d = .ok (st', evs)) :
    st'.frozenTransactions = st.frozenTransactions := by
  unfold setMaxCallDepth at h
  repeat' split at h
  all_goals (cases h <;> rfl)

/-- `setSuspiciousCallThreshold` never changes the frozen-transactions
ledger. -/
theorem setSuspiciousCallThreshold_frozen_eq (st st' : ILState) (env : CallEnv)
    (t : Nat) (evs : List Event)
    (h : setSuspiciousCallThreshold st env t = .ok (st', evs)) :
    st'.frozenTransactions = st.frozenTransactions := by
  unfold setSuspiciousCallThreshold at h
  repeat' split at h
  all_goals (cases h <;> rfl)

/-- `setGasPriceThreshold` never changes the frozen-transactions ledger. -/
theorem setGasPriceThreshold_frozen_eq (st st' : ILState) (env : CallEnv) (t : Nat)
    (evs : List Event) (h : setGasPriceThreshold st env t = .ok (st', evs)) :
    st'.frozenTransactions = st.frozenTransactions := by
  unfold setGasPriceThreshold at h
  repeat' split at h
  all_goals (cases h <;> rfl)

/-- `receiveAISimulationResult` never changes the frozen-transactions
ledger. -/
theorem receiveAISimulationResult_frozen_eq (st st' : ILState) (env : CallEnv)
    (tid : Nat) (dang : Bool) (loss : Nat) (rc sm : String) (evs : List Event)
    (h : receiveAISimulationResult st env tid dang loss rc sm = .ok (st', evs)) :
    st'.frozenTransactions = st.frozenTransactions := by
  unfold receiveAISimulationResult at h
  split at h
  · split at h
    · cases h
    · dsimp only at h
      split at h
      · split at h
        · cases h; rfl
        · cases h; rfl
      · cases h; rfl
  · cases h

/-- The `onlyOwner` modifier: a sender other than the owner is turned away
before any check or write. -/
theorem executeOwnerOverride_not_owner (st : ILState) (env : CallEnv) (tid : Nat)
    (a : String) (h : env.sender ≠ st.owner) :
    executeOwnerOverride st env tid a = .error .onlyOwner := by
  unfold executeOwnerOverride
  simp [h]

/-- Once a frozen transaction is executed or cancelled, every further
`executeOwnerOverride` on it fails with the already-processed error, for any
action. -/
theorem executeOwnerOverride_resolved_fails (st : ILState) (env : CallEnv) (tid : Nat)
    (a : String)
    (hown : env.sender = st.owner)
    (hlvl : (st.threatDetections tid).level ≠ .NONE)
    (hfro : (st.frozenTransactions tid).frozenAt ≠ 0)
    (hres : (st.frozenTransactions tid).executed = true ∨
            (st.frozenTransactions tid).cancelled = true) :
    executeOwnerOverride st env tid a = .error .alreadyProcessed := by
  unfold executeOwnerOverride
  simp [hown, hlvl, hfro, hres]

/-- `executeOwnerOverride` keeps the executed/cancelled flags mutually
exclusive: it only ever sets one of them, and only after checking both were
unset. -/
theorem executeOwnerOverride_notBoth (st st' : ILState) (env : CallEnv) (tid : Nat)
    (a : String) (evs : List Event)
    (h : executeOwnerOverride st env tid a = .ok (st', evs)) (id : Nat)
    (hnb : ¬((st.frozenTransactions id).executed = true ∧
             (st.frozenTransactions id).cancelled = true)) :
    ¬((st'.frozenTransactions id).executed = true ∧
      (st'.frozenTransactions id).cancelled = true) := by
  unfold executeOwnerOverride at h
  split at h
  · split at h
    · cases h
    · split at h
      · cases h
      · dsimp only at h
        split at h
        · cases h
        · split at h
          · cases h
          · rename_i hguard hexp
            split at h
            · split at h
              · rename_i res heq
                cases h
                by_cases hid : id = tid
                · subst hid
                  simp only [upd, if_pos rfl]
                  intro hc
                  exact hguard (Or.inr hc.2)
                · simp only [upd, if_neg hid]
                  exact hnb
              · cases h
                exact hnb
            · split at h
              · cases h
                by_cases hid : id = tid
                · subst hid
                  simp only [upd, if_pos rfl]
                  intro hc
                  exact hguard (Or.inl hc.1)
                · simp only [upd, if_neg hid]
                  exact hnb
              · split at h
                · cases h
                · cases h
  · cases h

/-- No transaction from a sender other than the owner ever changes the
frozen-transactions ledger: `executeOwnerOverride` is owner-gated and no
other entry point writes to it (a successful `protectedCall` does not, and
its freeze write only happens on the reverting path). -/
theorem step_frozen_unchanged_of_not_owner (st st' : ILState) (env : CallEnv)
    (m : ILMsg) (evs : List Event) (r : List Nat)
    (hs : env.sender ≠ st.owner)
    (h : step st env m = .ok (st', evs, r)) :
    st'.frozenTransactions = st.frozenTransactions := by
  cases m with
  | protectedCall t d =>
    simp only [step] at h
    exact protectedCall_frozen_eq _ _ _ _ _ _ _ h
  | addContractProtection c l =>
    simp only [step] at h
    obtain ⟨⟨s2, e2⟩, hin, hpair⟩ := map_ok_elim _ _ _ h
    cases hpair
    exact addContractProtection_frozen_eq _ _ _ _ _ _ hin
  | removeContractProtection c =>
    simp only [step] at h
    obtain ⟨⟨s2, e2⟩, hin, hpair⟩ := map_ok_elim _ _ _ h
    cases hpair
    exact removeContractProtection_frozen_eq _ _ _ _ _ hin
  | executeOwnerOverride tid a =>
    simp only [step] at h
    rw [executeOwnerOverride_not_owner st env tid a hs] at h
    simp [Except.map] at h
  | activateEmergencyStop reason =>
    simp only [step] at h
    obtain ⟨⟨s2, e2⟩, hin, hpair⟩ := map_ok_elim _ _ _ h
    cases hpair
    exact activateEmergencyStop_frozen_eq _ _ _ _ _ hin
  | deactivateEmergencyStop =>
    simp only [step] at h
    obtain ⟨⟨s2, e2⟩, hin, hpair⟩ := map_ok_elim _ _ _ h
    cases hpair
    exact deactivateEmergencyStop_frozen_eq _ _ _ _ hin
  | setAIOracle a =>
    simp only [step] at h
    obtain ⟨⟨s2, e2⟩, hin, hpair⟩ := map_ok_elim _ _ _ h
    cases hpair
    exact setAIOracle_frozen_eq _ _ _ _ _ hin
  | setFreezeDuration d =>
    simp only [step] at h
    obtain ⟨⟨s2, e2⟩, hin, hpair⟩ := map_ok_elim _ _ _ h
    cases hpair
    exact setFreezeDuration_frozen_eq _ _ _ _ _ hin
  | setMinBalanceThreshold t =>
    simp only [step] at h
    obtain ⟨⟨s2, e2⟩, hin, hpair⟩ := map_ok_elim _ _ _ h
    cases hpair
    exact setMinBalanceThreshold_frozen_eq _ _ _ _ _ hin
  | setMaxCallDepth d =>
    simp only [step] at h
    obtain ⟨⟨s2, e2⟩, hin, hpair⟩ := map_ok_elim _ _ _ h
    cases hpair
    exact setMaxCallDepth_frozen_eq _ _ _ _ _ hin
  | setSuspiciousCallThreshold t =>
    simp only [step] at h
    obtain ⟨⟨s2, e2⟩, hin, hpair⟩ := map_ok_elim _ _ _ h
    cases hpair
    exact setSuspiciousCallThreshold_frozen_eq _ _ _ _ _ hin
  | setGasPriceThreshold t =>
    simp only [step] at h
    obtain ⟨⟨s2, e2⟩, hin, hpair⟩ := map_ok_elim _ _ _ h
    cases hpair
    exact setGasPriceThreshold_frozen_eq _ _ _ _ _ hin
  | receiveAISimulationResult tid dang loss rc sm =>
    simp only [step] at h
    obtain ⟨⟨s2, e2⟩, hin, hpair⟩ := map_ok_elim _ _ _ h
    cases hpair
    exact receiveAISimulationResult_frozen_eq _ _ _ _ _ _ _ _ _ hin
  | directCall d =>
    simp only [step] at h
    split at h
    · cases h; rfl
    · cases h

/-- Every transaction of the external interface preserves the mutual
exclusion of the executed/cancelled flags of every frozen transaction. -/
theorem step_preserves_flag_exclusion (st st' : ILState) (env : CallEnv)
    (m : ILMsg) (evs : List Event) (r : List Nat)
    (h : step st env m = .ok (st', evs, r)) (id : Nat)
    (hnb : ¬((st.frozenTransactions id).executed = true ∧
             (st.frozenTransactions id).cancelled = true)) :
    ¬((st'.frozenTransactions id).executed = true ∧
      (st'.frozenTransactions id).cancelled = true) := by
  cases m with
  | protectedCall t d =>
    simp only [step] at h
    rw [protectedCall_frozen_eq _ _ _ _ _ _ _ h]
    exact hnb
  | addContractProtection c l =>
    simp only [step] at h
    obtain ⟨⟨s2, e2⟩, hin, hpair⟩ := map_ok_elim _ _ _ h
    cases hpair
    rw [addContractProtection_frozen_eq _ _ _ _ _ _ hin]
    exact hnb
  | removeContractProtection c =>
    simp only [step] at h
    obtain ⟨⟨s2, e2⟩, hin, hpair⟩ := map_ok_elim _ _ _ h
    cases hpair
    rw [removeContractProtection_frozen_eq _ _ _ _ _ hin]
    exact hnb
  | executeOwnerOverride tid a =>
    simp only [step] at h
    obtain ⟨⟨s2, e2⟩, hin, hpair⟩ := map_ok_elim _ _ _ h
    cases hpair
    exact executeOwnerOverride_notBoth _ _ _ _ _ _ hin id hnb
  | activateEmergencyStop reason =>
    simp only [step] at h
    obtain ⟨⟨s2, e2⟩, hin, hpair⟩ := map_ok_elim _ _ _ h
    cases hpair
    rw [activateEmergencyStop_frozen_eq _ _ _ _ _ hin]
    exact hnb
  | deactivateEmergencyStop =>
    simp only [step] at h
    obtain ⟨⟨s2, e2⟩, hin, hpair⟩ := map_ok_elim _ _ _ h
    cases hpair
    rw [deactivateEmergencyStop_frozen_eq _ _ _ _ hin]
    exact hnb
  | setAIOracle a =>
    simp only [step] at h
    obtain ⟨⟨s2, e2⟩, hin, hpair⟩ := map_ok_elim _ _ _ h
    cases hpair
    rw [setAIOracle_frozen_eq _ _ _ _ _ hin]
    exact hnb
  | setFreezeDuration d =>
    simp only [step] at h
    obtain ⟨⟨s2, e2⟩, hin, hpair⟩ := map_ok_elim _ _ _ h
    cases hpair
    rw [setFreezeDuration_frozen_eq _ _ _ _ _ hin]
    exact hnb
  | setMinBalanceThreshold t =>
    simp only [step] at h
    obtain ⟨⟨s2, e2⟩, hin, hpair⟩ := map_ok_elim _ _ _ h
    cases hpair
    rw [setMinBalanceThreshold_frozen_eq _ _ _ _ _ hin]
    exact hnb
  | setMaxCallDepth d =>
    simp only [step] at h
    obtain ⟨⟨s2, e2⟩, hin, hpair⟩ := map_ok_elim _ _ _ h
    cases hpair
    rw [setMaxCallDepth_frozen_eq _ _ _ _ _ hin]
    exact hnb
  | setSuspiciousCallThreshold t =>
    simp only [step] at h
    obtain ⟨⟨s2, e2⟩, hin, hpair⟩ := map_ok_elim _ _ _ h
    cases hpair
    rw [setSuspiciousCallThreshold_frozen_eq _ _ _ _ _ hin]
    exact hnb
  | setGasPriceThreshold t =>
    simp only [step] at h
    obtain ⟨⟨s2, e2⟩, hin, hpair⟩ := map_ok_elim _ _ _ h
    cases hpair
    rw [setGasPriceThreshold_frozen_eq _ _ _ _ _ hin]
    exact hnb
  | receiveAISimulationResult tid dang loss rc sm =>
    simp only [step] at h
    obtain ⟨⟨s2, e2⟩, hin, hpair⟩ := map_ok_elim _ _ _ h
    cases hpair
    rw [receiveAISimulationResult_frozen_eq _ _ _ _ _ _ _ _ _ hin]
    exact hnb
  | directCall d =>
    simp only [step] at h
    split at h
    · cases h; exact hnb
    · cases h

/-- When the environment makes the forwarded target call fail, the
monitoring wrapper reverts with the fixed execution-failed error. -/
theorem executeWithEnhancedMonitoring_fails (s : ILState) (env : CallEnv) (tid : Nat)
    (hfail : env.targetCallResult.1 = false) :
    executeWithEnhancedMonitoring s env tid = .error .executionFailed := by
  unfold executeWithEnhancedMonitoring
  cases henv : env.targetCallResult with
  | mk b res =>
    rw [henv] at hfail
    dsimp at hfail
    subst hfail
    rfl

/-- Claim C1: the spec says a HIGH-or-above classification records exactly
one ThreatRecord and one FrozenCall and then fails the call with a
Frozen(threatId) error.  The code does revert with the Frozen error and
never forwards the call, but the revert rolls back the whole transaction,
including the ThreatRecord and FrozenCall writes of `_freezeTransaction`:
evaluated at a concrete reentrancy-shaped attempt (contract caller, sensitive
selector) against a protected target, `protectedCall` fails with the Frozen
error, yet afterwards no threat record exists (a subsequent
`executeOwnerOverride` on the reported threat id fails with the
no-threat-found error) and no frozen transaction exists (its `frozenAt` is
still the mapping default 0).  This contradicts the spec and the
repository integration tests, which resolve the threat after the freeze. -/
theorem protectedCall_high_risk_freeze_rolls_back :
    protectedCall st0 envAttack 10 wdata =
      .error (.frozenForReview (computeThreatId 10 2 wdata 0 100 1000)) ∧
    executeOwnerOverride st0 envOwner (computeThreatId 10 2 wdata 0 100 1000) "revert" =
      .error .noThreatFound ∧
    (st0.frozenTransactions (computeThreatId 10 2 wdata 0 100 1000)).frozenAt = 0 :=
  ⟨rfl, rfl, rfl⟩

/-- Claim C2: for every FrozenCall the pair (executed, cancelled) is never
(true, true) - every transaction of the external interface preserves the
exclusion - and once either flag is true, every subsequent
`executeOwnerOverride` on that threat id (the only resolution entry point;
no selfResolve exists, see claim C4) fails with the AlreadyResolved error. -/
theorem frozenCall_flags_exclusive_and_terminal :
    (∀ (st st' : ILState) (env : CallEnv) (m : ILMsg) (evs : List Event) (r : List Nat)
        (id : Nat),
      step st env m = .ok (st', evs, r) →
      ¬((st.frozenTransactions id).executed = true ∧
        (st.frozenTransactions id).cancelled = true) →
      ¬((st'.frozenTransactions id).executed = true ∧
        (st'.frozenTransactions id).cancelled = true)) ∧
    (∀ (st : ILState) (env : CallEnv) (tid : Nat) (action : String),
      env.sender = st.owner →
      (st.threatDetections tid).level ≠ .NONE →
      (st.frozenTransactions tid).frozenAt ≠ 0 →
      ((st.frozenTransactions tid).executed = true ∨
       (st.frozenTransactions tid).cancelled = true) →
      executeOwnerOverride st env tid action = .error .alreadyProcessed) :=
  ⟨fun st st' env m evs r id h hnb => step_preserves_flag_exclusion st st' env m evs r h id hnb,
   fun st env tid action hown hlvl hfro hres =>
     executeOwnerOverride_resolved_fails st env tid action hown hlvl hfro hres⟩

/-- Witness for claim C2 at a concrete frozen call: flag exclusion after a
concrete transaction, and AlreadyResolved on a cancelled record. -/
theorem frozenCall_flags_exclusive_and_terminal_witness :
    ¬((stFrozen.frozenTransactions 77).executed = true ∧
      (stFrozen.frozenTransactions 77).cancelled = true) ∧
    executeOwnerOverride stCancelled envOwner 77 "execute" = .error .alreadyProcessed :=
  ⟨frozenCall_flags_exclusive_and_terminal.1 stFrozen stFrozen envOwner
      (.directCall []) [] [] 77 rfl (by decide),
   frozenCall_flags_exclusive_and_terminal.2 stCancelled envOwner 77 "execute"
      rfl (by decide) (by decide) (by decide)⟩

/-- Claim C3: for an unresolved frozen call, `executeOwnerOverride` succeeds
whenever the current block number is at most the freeze expiry (in
particular at `now = freezeExpiry`), and for every action it fails with the
FreezeExpired error whenever the block number exceeds the expiry (in
particular at `now = freezeExpiry + 1`); the source check is
`block.number <= freezeUntil`. -/
theorem ownerOverride_freeze_expiry_boundary (st : ILState) (env : CallEnv) (tid : Nat)
    (hown : env.sender = st.owner)
    (hlvl : (st.threatDetections tid).level ≠ .NONE)
    (hfro : (st.frozenTransactions tid).frozenAt ≠ 0)
    (hex : (st.frozenTransactions tid).executed = false)
    (hca : (st.frozenTransactions tid).cancelled = false) :
    (env.blockNumber ≤ (st.frozenTransactions tid).freezeUntil →
      (executeOwnerOverride st env tid "revert").isOk = true) ∧
    ((st.frozenTransactions tid).freezeUntil < env.blockNumber →
      ∀ action : String,
        executeOwnerOverride st env tid action = .error .freezePeriodExpired) := by
  constructor
  · intro hle
    unfold executeOwnerOverride
    simp [hown, hlvl, hfro, hex, hca, Nat.not_lt.mpr hle, Except.isOk, Except.toBool]
  · intro hgt action
    unfold executeOwnerOverride
    simp [hown, hlvl, hfro, hex, hca, hgt]

/-- Witness for claim C3: the frozen call 77 expires at block 130; the owner
override succeeds at block 130 and fails FreezeExpired at block 131. -/
theorem ownerOverride_freeze_expiry_boundary_witness :
    ((executeOwnerOverride stFrozen (envOwnerAt 130) 77 "revert").isOk = true) ∧
    executeOwnerOverride stFrozen (envOwnerAt 131) 77 "execute" = .error .freezePeriodExpired :=
  ⟨(ownerOverride_freeze_expiry_boundary stFrozen (envOwnerAt 130) 77 rfl
      (by decide) (by decide) (by decide) (by decide)).1 (by decide),
   (ownerOverride_freeze_expiry_boundary stFrozen (envOwnerAt 131) 77 rfl
      (by decide) (by decide) (by decide) (by decide)).2 (by decide) "execute"⟩

/-- Claim C4 (amended): the repository has no `selfResolve` operation; the
only resolution entry point is `executeOwnerOverride`, gated on the contract
owner.  No transaction of the external interface sent by a non-owner - in
particular by the initiator of a frozen call - ever changes the
frozen-transactions ledger, so a frozen call cannot be resolved by its
initiator unless the initiator is the owner. -/
theorem frozen_resolution_requires_owner (st st' : ILState) (env : CallEnv) (m : ILMsg)
    (evs : List Event) (r : List Nat)
    (hs : env.sender ≠ st.owner)
    (h : step st env m = .ok (st', evs, r)) :
    st'.frozenTransactions = st.frozenTransactions :=
  step_frozen_unchanged_of_not_owner st st' env m evs r hs h

/-- Witness for the amended claim C4: a concrete transaction from the
initiator (address 5, not the owner) leaves the frozen ledger unchanged. -/
theorem frozen_resolution_requires_owner_witness :
    stFrozen.frozenTransactions = stFrozen.frozenTransactions :=
  frozen_resolution_requires_owner stFrozen stFrozen envInitiator (.directCall [])
    [] [] (by decide) rfl

/-- Counterexample to claim C4 as stated: in the concrete state holding the
frozen call 77 with initiator 5 (while the owner is address 1), no message
of the external interface sent by address 5 can make the frozen call
executed or cancelled - the initiator cannot resolve their own frozen call,
because no selfResolve operation exists in the code. -/
theorem selfResolve_initiator_cannot_resolve :
    ¬ ∃ (m : ILMsg) (env : CallEnv) (st' : ILState) (evs : List Event) (r : List Nat),
        env.sender = 5 ∧ step stFrozen env m = .ok (st', evs, r) ∧
        ((st'.frozenTransactions 77).executed = true ∨
         (st'.frozenTransactions 77).cancelled = true) := by
  rintro ⟨m, env, st', evs, r, hsend, hstep, hres⟩
  have hfr := step_frozen_unchanged_of_not_owner stFrozen st' env m evs r
    (by rw [hsend]; decide) hstep
  rw [hfr] at hres
  revert hres
  decide

/-- Counterexample to claim C5 as stated: the gateway does not propagate a
target-level failure unchanged.  Two forwarded calls whose target failures
carry different revert data ([1] versus [2]) both surface to the caller as
the same fixed gateway error (`require(success, "Execution failed")`), so
the target failure is replaced by the gateway error and its revert data is
discarded. -/
theorem target_failures_indistinguishable :
    protectedCall st0 (envTargetFail 1) 10 [] = .error .executionFailed ∧
    protectedCall st0 (envTargetFail 2) 10 [] = .error .executionFailed :=
  ⟨rfl, rfl⟩

/-- Claim C5 (amended): for every attempt allowed through (classification
below HIGH), if the forwarded call to the target fails, `protectedCall`
fails as well - the failure is not swallowed - but it is surfaced as the
fixed gateway error `Execution failed`, replacing the target revert data. -/
theorem protectedCall_replaces_target_failure (st : ILState) (env : CallEnv) (t : Nat)
    (d : List Nat) (th : ThreatDetection) (st1 : ILState)
    (hstop : st.emergencyStop = false)
    (hprot : (st.protectedContracts t).isProtected = true)
    (hdet : detectThreats st env t d = .ok (th, st1))
    (hlow : th.level.toNat < 3)
    (hfail : env.targetCallResult.1 = false) :
    protectedCall st env t d = .error .executionFailed := by
  unfold protectedCall
  rw [if_neg (by simp [hstop]), if_neg (by simp [hprot]), hdet]
  dsimp only
  split
  · split
    · rename_i h3
      omega
    · rw [executeWithEnhancedMonitoring_fails _ env _ hfail]
  · exact executeWithEnhancedMonitoring_fails _ env _ hfail

/-- Witness for the amended claim C5 at a concrete failing forwarded call. -/
theorem protectedCall_replaces_target_failure_witness :
    protectedCall st0 (envTargetFail 9) 10 [] = .error .executionFailed :=
  protectedCall_replaces_target_failure st0 (envTargetFail 9) 10 [] _ _ rfl rfl rfl
    (by decide) rfl

/-- Claim C6: the threat classifier evaluates its heuristics in a fixed
priority order and returns the first match; whenever the reentrancy shape
holds (the caller has contract code and the 4-byte selector of the payload
is in the sensitive selector set), the classification is HIGH/REENTRANCY,
for every state and environment - regardless of any later heuristic
(flash-loan, state-manipulation, value-flow, gas-price and so on) also
matching. -/
theorem reentrancy_heuristic_has_priority (st : ILState) (env : CallEnv)
    (target : Nat) (data : List Nat)
    (hcode : env.callerCodeLen ≠ 0)
    (hlen : 4 ≤ data.length)
    (hsig : vulnerableSigs.contains (sel4 data) = true) :
    detectThreats st env target data =
      .ok (mkThreat env target data .HIGH .REENTRANCY
        "Possible reentrancy attack pattern detected", st) := by
  have hre : detectReentrancyPattern data env.callerCodeLen = true := by
    unfold detectReentrancyPattern
    rw [if_neg hcode, if_pos hlen]
    exact hsig
  unfold detectThreats
  rw [if_pos hre]

/-- Witness for claim C6: a concrete contract caller invoking the sensitive
withdraw selector is classified HIGH/REENTRANCY even though its environment
would also trip later heuristics. -/
theorem reentrancy_heuristic_has_priority_witness :
    detectThreats st0 envAttack 10 wdata =
      .ok (mkThreat envAttack 10 wdata .HIGH .REENTRANCY
        "Possible reentrancy attack pattern detected", st0) :=
  reentrancy_heuristic_has_priority st0 envAttack 10 wdata (by decide) (by decide)
    (by decide)

/-- Claim C7: after a first successful `submitAnalysis` for a threat id, a
second `submitAnalysis` for the same id fails with the AlreadyCompleted
error, whatever its arguments, and the stored analysis text and suggested
action are the ones of the first call, unchanged by the failed second call
(which, failing, writes nothing). -/
theorem submitAnalysis_second_call_fails (st : OracleState) (sender tid : Nat)
    (a1 act1 a2 act2 : String) (c1 c2 : Bool)
    (hsend : sender = st.owner)
    (hnc : (st.analysisRequests tid).completed = false) :
    ∃ st' evs, submitAnalysis st sender tid a1 act1 c1 = .ok (st', evs) ∧
      submitAnalysis st' sender tid a2 act2 c2 = .error .alreadyCompleted ∧
      (st'.analysisRequests tid).completed = true ∧
      (st'.analysisRequests tid).aiAnalysis = a1 ∧
      (st'.analysisRequests tid).suggestedAction = act1 := by
  refine ⟨{ st with analysisRequests := upd st.analysisRequests tid ({ st.analysisRequests tid with completed := true, aiAnalysis := a1, suggestedAction := act1 }) }, [.AnalysisCompleted tid a1 act1 c1], ?_, ?_, ?_, ?_, ?_⟩
  · unfold submitAnalysis
    simp [hsend, hnc]
  · unfold submitAnalysis
    simp [hsend, upd]
  · simp [upd]
  · simp [upd]
  · simp [upd]

/-- Witness for claim C7 on a fresh oracle state. -/
theorem submitAnalysis_second_call_fails_witness :
    ∃ st' evs, submitAnalysis stOracle0 1 5 "root cause" "revert" true = .ok (st', evs) ∧
      submitAnalysis st' 1 5 "other" "execute" false = .error .alreadyCompleted ∧
      (st'.analysisRequests 5).completed = true ∧
      (st'.analysisRequests 5).aiAnalysis = "root cause" ∧
      (st'.analysisRequests 5).suggestedAction = "revert" :=
  submitAnalysis_second_call_fails stOracle0 1 5 "root cause" "revert" "other"
    "execute" true false rfl rfl

/-- Counterexample to claim C8 as stated: `requestAnalysis` on a threat id
whose request is already present (and even completed, with a stored verdict)
is not a no-op: it overwrites the record, resetting `completed` to false,
clearing the stored analysis, and refreshing the timestamp. -/
theorem requestAnalysis_resets_completed_verdict :
    (stOracleDone.analysisRequests 5).completed = true ∧
    (stOracleDone.analysisRequests 5).aiAnalysis = "verdict" ∧
    ∃ st' evs, requestAnalysis stOracleDone 3 999 5 10 2 wdata = .ok (st', evs) ∧
      (st'.analysisRequests 5).completed = false ∧
      (st'.analysisRequests 5).aiAnalysis = "" ∧
      (st'.analysisRequests 5).timestamp = 999 :=
  ⟨rfl, rfl, _, _, rfl, rfl, rfl, rfl⟩

/-- Claim C8 (amended): a repeated `requestAnalysis` for an existing threat
id unconditionally replaces the stored AnalysisRequest with a fresh record
(completed false, empty analysis fields, new timestamp); the source has no
already-requested check, so the call is an overwrite, not an idempotent
no-op. -/
theorem requestAnalysis_overwrites_existing (st : OracleState)
    (sender now tid tgt caller : Nat) (data : List Nat)
    (hsend : sender = st.immunityLayer) :
    ∃ st' evs, requestAnalysis st sender now tid tgt caller data = .ok (st', evs) ∧
      st'.analysisRequests tid =
        { threatId := tid, targetContract := tgt, caller := caller, data := data,
          timestamp := now, completed := false, aiAnalysis := "",
          suggestedAction := "" } := by
  refine ⟨{ st with analysisRequests := upd st.analysisRequests tid ({ threatId := tid, targetContract := tgt, caller := caller, data := data, timestamp := now, completed := false, aiAnalysis := "", suggestedAction := "" }) }, [.AnalysisRequested tid tgt caller], ?_, ?_⟩
  · unfold requestAnalysis
    simp [hsend]
  · simp [upd]

/-- Witness for the amended claim C8 on a completed request. -/
theorem requestAnalysis_overwrites_existing_witness :
    ∃ st' evs, requestAnalysis stOracleDone 3 999 5 10 2 wdata = .ok (st', evs) ∧
      st'.analysisRequests 5 =
        { threatId := 5, targetContract := 10, caller := 2, data := wdata,
          timestamp := 999, completed := false, aiAnalysis := "",
          suggestedAction := "" } :=
  requestAnalysis_overwrites_existing stOracleDone 3 999 5 10 2 wdata rfl

/-- Claim C9: when an owner override with action `execute` re-invokes the
original call and that call fails, `executeOwnerOverride` completes without
any error and returns the state completely unchanged (threat not marked
mitigated, frozen call still neither executed nor cancelled and hence still
resolvable, mitigation counter untouched) and emits no event. -/
theorem ownerOverride_execute_failure_is_silent_noop (st : ILState) (env : CallEnv)
    (tid : Nat)
    (hown : env.sender = st.owner)
    (hlvl : (st.threatDetections tid).level ≠ .NONE)
    (hfro : (st.frozenTransactions tid).frozenAt ≠ 0)
    (hex : (st.frozenTransactions tid).executed = false)
    (hca : (st.frozenTransactions tid).cancelled = false)
    (hnotexp : ¬((st.frozenTransactions tid).freezeUntil < env.blockNumber))
    (hfail : env.overrideCallResult.1 = false) :
    executeOwnerOverride st env tid "execute" = .ok (st, []) := by
  unfold executeOwnerOverride
  cases henv : env.overrideCallResult with
  | mk b res =>
    rw [henv] at hfail
    dsimp at hfail
    subst hfail
    simp [hown, hlvl, hfro, hex, hca, hnotexp, henv]

/-- Witness for claim C9: a concrete failing re-invocation returns the
pre-state with no events. -/
theorem ownerOverride_execute_failure_is_silent_noop_witness :
    executeOwnerOverride stFrozen envOwnerFail 77 "execute" = .ok (stFrozen, []) :=
  ownerOverride_execute_failure_is_silent_noop stFrozen envOwnerFail 77 rfl
    (by decide) (by decide) (by decide) (by decide) (by decide) rfl

/-- Claim C10: a call on a protected target with non-zero attached value and
a payload of 1 to 3 bytes that matches none of the earlier heuristics (here:
a caller with no contract code, no flash-loan value/gas shape, first call of
the caller in this ordering unit) makes `_detectUnexpectedETHFlow` slice
`_data[:4]` out of range, aborting the whole transaction: nothing is
forwarded or recorded and the failure is the slice panic, none of the
specified error outcomes. -/
theorem protectedCall_short_payload_with_value_panics (st : ILState) (env : CallEnv)
    (target : Nat) (data : List Nat)
    (hstop : st.emergencyStop = false)
    (hprot : (st.protectedContracts target).isProtected = true)
    (hcode : env.callerCodeLen = 0)
    (hflash : ¬(10 * etherUnit < env.value ∧ env.gasLeft < 100000))
    (hfirst : st.lastInteractionBlock env.sender ≠ env.blockNumber)
    (hval : 0 < env.value)
    (hlen1 : 0 < data.length)
    (hlen3 : data.length < 4) :
    protectedCall st env target data = .error .panicSliceOutOfBounds := by
  have hre : detectReentrancyPattern data env.callerCodeLen = false := by
    unfold detectReentrancyPattern
    rw [if_pos hcode]
  have hfl : detectFlashLoanPattern st env = false := by
    unfold detectFlashLoanPattern
    rw [if_neg (by rw [hcode]; rintro ⟨h1, -, -⟩; exact absurd h1 (lt_irrefl 0)),
        if_neg hflash]
  have hdet : detectThreats st env target data = .error .panicSliceOutOfBounds := by
    unfold detectThreats
    rw [if_neg (by simp [hre]), if_neg (by simp [hfl])]
    unfold detectStateManipulation
    rw [if_neg hfirst]
    dsimp only
    unfold detectUnexpectedETHFlow
    rw [if_pos ⟨hval, hlen1⟩, if_pos hlen3]
  unfold protectedCall
  rw [if_neg (by simp [hstop]), if_neg (by simp [hprot]), hdet]

/-- Witness for claim C10: a 3-byte payload with 5 wei attached from a plain
caller aborts with the slice panic. -/
theorem protectedCall_short_payload_with_value_panics_witness :
    protectedCall st0 envShortPay 10 [1, 2, 3] = .error .panicSliceOutOfBounds :=
  protectedCall_short_payload_with_value_panics st0 envShortPay 10 [1, 2, 3] rfl
    (by decide) rfl (by decide) (by decide) (by decide) (by decide) (by decide)
